import Mathlib

/-!
Shallow embedding of the Webhook-coupon repository.

The repository contains four HTTP handler variants that upsert a customer
record on a remote e-commerce platform:
  * `Webhook1.handler` — the first handler in `src/api/webhook.js`
    (lines 4–74): validates, then unconditionally issues a create call.
  * `Webhook2.handler` — the second handler in `src/api/webhook.js`
    (lines 109–365): validate, search, update-or-create with fallback.
  * `Part000.handler` — `src/unnamed/part_000`: same workflow, fixed tag
    string on update, two metafields under namespace "popup".
  * `Part001.handler` — `src/unnamed/part_001`: same workflow, no email
    format check, two metafields under namespace "discount_popup".

Each handler is modelled as a pure function from the parsed request body,
the execution environment (credentials and the current timestamp) and the
platform's responses for this invocation, to the handler's HTTP response
together with the ordered list of outbound calls it issued.
-/

/-- ASCII characters matched by the regex class `\s` (the `[^\s@]` atoms of
the email pattern exclude these and the at-sign). -/
def jsSpace (c : Char) : Bool :=
  c == ' ' || c == '\t' || c == '\n' || c == '\r' || c == '\x0b' || c == '\x0c'

/-- Matcher for the source's email pattern `^[^\s@]+@[^\s@]+\.[^\s@]+$`:
the string is local-part `@` domain-part, where the local part is a nonempty
run of non-space non-`@` characters, and the domain part is `@`-free,
space-free, and has a dot at some interior position. -/
def isValidEmail (s : String) : Bool :=
  let cs := s.toList
  let lpart := cs.takeWhile (fun c => c != '@')
  match cs.dropWhile (fun c => c != '@') with
  | '@' :: dpart =>
      !lpart.isEmpty && lpart.all (fun c => !jsSpace c) &&
      !dpart.contains '@' &&
      dpart.all (fun c => !jsSpace c) &&
      ((dpart.drop 1).dropLast.contains '.')
  | _ => false

/-- JavaScript truthiness of a possibly-absent string field: `undefined`
and the empty string are falsy. -/
def jsFalsy : Option String → Bool
  | none => true
  | some s => s == ""

def jsTruthy (o : Option String) : Bool := !jsFalsy o

/-- Template-literal rendering of a possibly-absent string: `undefined`
interpolates as the text "undefined". -/
def jsStr : Option String → String
  | none => "undefined"
  | some s => s

/-- JavaScript `a || b` for a possibly-absent string `a` with default `b`. -/
def jsOr (a : Option String) (b : String) : String :=
  if jsTruthy a then jsStr a else b

def substrAt (hay needle : List Char) : Bool :=
  needle.isPrefixOf hay

/-- JavaScript `String.prototype.includes`, on character lists. -/
def jsIncludesL : List Char → List Char → Bool
  | [], needle => needle.isEmpty
  | c :: rest, needle => substrAt (c :: rest) needle || jsIncludesL rest needle

/-- JavaScript `String.prototype.includes`. -/
def jsIncludes (hay needle : String) : Bool :=
  jsIncludesL hay.toList needle.toList

/-- The `email_marketing_consent` object sent in update and create bodies. -/
structure Consent where
  state : String
  opt_in_level : String
  consent_updated_at : String
deriving DecidableEq, Repr

/-- The consent object every search-based handler constructs:
state "subscribed", level "single_opt_in", timestamp `new Date().toISOString()`. -/
def nowConsent (now : String) : Consent :=
  { state := "subscribed", opt_in_level := "single_opt_in", consent_updated_at := now }

/-- Projection of a platform customer record as the handlers read it. -/
structure Customer where
  id : String
  email : String
  tags : Option String
  admin_graphql_api_id : String
deriving DecidableEq, Repr

/-- Body of a PUT update call: `{customer: {id, email_marketing_consent, tags}}`. -/
structure UpdateBody where
  id : String
  email_marketing_consent : Consent
  tags : Option String
deriving DecidableEq, Repr

/-- One metafield entry of a create body. `nspace` and `mtype` model the
JSON keys `namespace` and `type`, which are Lean keywords. -/
structure Metafield where
  nspace : String
  key : String
  value : Option String
  mtype : String
deriving DecidableEq, Repr

/-- Body of a POST create call in the three search-based handlers. -/
structure CreateBody where
  email : String
  email_marketing_consent : Consent
  tags : String
  note : String
  metafields : List Metafield
deriving DecidableEq, Repr

/-- Body of the create call of the first webhook.js handler, which uses the
older `accepts_marketing` / `marketing_opt_in_level` fields. -/
structure LegacyCreateBody where
  email : String
  accepts_marketing : Bool
  tags : String
  note : String
  marketing_opt_in_level : String
  verified_email : Bool
deriving DecidableEq, Repr

/-- One outbound call to the platform, with the data that varies per call. -/
inductive Call where
  | search (domain : String) (emailQuery : String)
  | update (domain : String) (id : String) (body : UpdateBody)
  | create (domain : String) (body : CreateBody)
  | legacyCreate (domain : String) (body : LegacyCreateBody)
deriving DecidableEq, Repr

def Call.isSearch : Call → Bool
  | .search _ _ => true
  | _ => false

def Call.isUpdate : Call → Bool
  | .update _ _ _ => true
  | _ => false

def Call.isCreate : Call → Bool
  | .create _ _ => true
  | _ => false

/-- The customer id a call addresses: only PUT update calls address one
(it appears in the URL path and in the body). -/
def Call.targetId : Call → Option String
  | .update _ i _ => some i
  | _ => none

/-- The `email_marketing_consent` object a call's body carries, when the
call is one of the writes of the search-based handlers. -/
def Call.consentOf : Call → Option Consent
  | .update _ _ b => some b.email_marketing_consent
  | .create _ b => some b.email_marketing_consent
  | _ => none

/-- Platform response to the customer-search GET. A missing `customers`
field is modelled as the empty list. -/
structure SearchResp where
  ok : Bool
  status : Nat
  errorText : String
  customers : List Customer
deriving DecidableEq, Repr

/-- Platform response to the PUT update. -/
structure UpdateResp where
  ok : Bool
  status : Nat
  errorText : String
deriving DecidableEq, Repr

/-- Platform response to the POST create; `customer` is the record parsed
from the response body when `ok` holds. -/
structure CreateResp where
  ok : Bool
  status : Nat
  responseText : String
  customer : Customer
deriving DecidableEq, Repr

/-- The platform's behaviour during one invocation. -/
structure Platform where
  search : SearchResp
  update : UpdateResp
  create : CreateResp
deriving DecidableEq, Repr

/-- Execution environment: the two credentials and the current time
(`now` for `toISOString`, `nowLocal` for `toLocaleDateString`). -/
structure Env where
  shopifyDomain : Option String
  accessToken : Option String
  now : String
  nowLocal : String
deriving DecidableEq, Repr

/-- The parsed inbound request. -/
structure Request where
  method : String
  email : Option String
  source : Option String
  discount_code : Option String
  tags : Option String
deriving DecidableEq, Repr

/-- Projection of the JSON response a handler returns: the HTTP status and
the fields the handlers set (absent fields are `none`). -/
structure ApiResponse where
  status : Nat
  success : Option Bool := none
  error : Option String := none
  message : Option String := none
  customer_id : Option String := none
  email : Option String := none
  existing_customer : Option Bool := none
  details : Option String := none
  note : Option String := none
deriving DecidableEq, Repr

/-- Default tag string `'newsletter,discount-popup,popup-subscriber'`. -/
def defaultTags : String := "newsletter,discount-popup,popup-subscriber"

namespace Webhook1

/-- Create-call body of the first webhook.js handler (its `customerData`). -/
def customerData (req : Request) (env : Env) : LegacyCreateBody :=
  { email := jsStr req.email
  , accepts_marketing := true
  , tags := jsOr req.tags defaultTags
  , note := "Subscribed via discount popup (" ++ jsOr req.source "unknown" ++ ") on " ++
      env.nowLocal ++ ". Interested in discount: " ++ jsOr req.discount_code "N/A"
  , marketing_opt_in_level := "confirmed_opt_in"
  , verified_email := true }

/-- Message of the error `createShopifyCustomer` throws on a non-ok response. -/
def errorMessage (plat : Platform) : String :=
  "Shopify API Error: " ++ toString plat.create.status ++ " - " ++ plat.create.responseText

/-- First handler of `src/api/webhook.js` (lines 4–74). -/
def handler (req : Request) (env : Env) (plat : Platform) : ApiResponse × List Call :=
  if req.method == "OPTIONS" then
    ({ status := 200 }, [])
  else if req.method != "POST" then
    ({ status := 405, error := some "Method not allowed" }, [])
  else if jsFalsy req.email || !isValidEmail (jsStr req.email) then
    ({ status := 400, error := some "Invalid email address" }, [])
  else if jsFalsy env.accessToken || jsFalsy env.shopifyDomain then
    ({ status := 500, error := some "Missing Shopify configuration" }, [])
  else
    let cCall := Call.legacyCreate (jsStr env.shopifyDomain) (customerData req env)
    if plat.create.ok then
      ({ status := 200, success := some true, customer_id := some plat.create.customer.id,
         email := some plat.create.customer.email,
         message := some "Customer created successfully" }, [cCall])
    else if jsIncludes (errorMessage plat) "422" then
      ({ status := 200, success := some true,
         message := some "Customer already exists - updated marketing consent",
         note := some "Email was already in system" }, [cCall])
    else
      ({ status := 500, error := some "Failed to create customer",
         details := some (errorMessage plat) }, [cCall])

end Webhook1

namespace Webhook2

/-- Tag merge of the second webhook.js handler: `existingTags ? existingTags
++ "," ++ newTags : newTags` with `newTags = tags || defaultTags`. -/
def combinedTags (req : Request) (c : Customer) : String :=
  let existingTags := jsOr c.tags ""
  let newTags := jsOr req.tags defaultTags
  if existingTags != "" then existingTags ++ "," ++ newTags else newTags

/-- Update-call body of the second webhook.js handler. -/
def updateData (req : Request) (env : Env) (c : Customer) : UpdateBody :=
  { id := c.id, email_marketing_consent := nowConsent env.now,
    tags := some (combinedTags req c) }

/-- Create-call body of the second webhook.js handler: three metafields
(source, discount_code, created_via) under namespace `discount_popup`. -/
def customerData (req : Request) (env : Env) : CreateBody :=
  { email := jsStr req.email
  , email_marketing_consent := nowConsent env.now
  , tags := jsOr req.tags defaultTags
  , note := "Customer created via discount popup. Source: " ++ jsOr req.source "discount_popup" ++
      ". Discount code: " ++ jsOr req.discount_code "WELCOME10" ++ ". Created: " ++ env.now
  , metafields :=
      [ { nspace := "discount_popup", key := "source",
          value := some (jsOr req.source "discount_popup"),
          mtype := "single_line_text_field" }
      , { nspace := "discount_popup", key := "discount_code",
          value := some (jsOr req.discount_code "WELCOME10"),
          mtype := "single_line_text_field" }
      , { nspace := "discount_popup", key := "created_via",
          value := some "popup_webhook",
          mtype := "single_line_text_field" } ] }

/-- Create step of the second webhook.js handler, reached when no customer
was found or the update failed; `pre` is the trace issued so far. -/
def createStep (req : Request) (env : Env) (plat : Platform) (pre : List Call) :
    ApiResponse × List Call :=
  let cCall := Call.create (jsStr env.shopifyDomain) (customerData req env)
  if plat.create.ok then
    ({ status := 200, success := some true, message := some "Customer created successfully",
       customer_id := some plat.create.customer.id, email := some plat.create.customer.email,
       existing_customer := some false }, pre ++ [cCall])
  else
    ({ status := 500, error := some "Failed to create customer",
       details := some ("Shopify API Error: " ++ toString plat.create.status ++ " - " ++
         plat.create.responseText) }, pre ++ [cCall])

/-- Search-and-branch tail of the second webhook.js handler, reached once
method, email and credential guards have passed. -/
def afterSearch (req : Request) (env : Env) (plat : Platform) : ApiResponse × List Call :=
  let sCall := Call.search (jsStr env.shopifyDomain) (jsStr req.email)
  if !plat.search.ok then
    ({ status := 500, error := some "Failed to search for existing customer",
       details := some ("Shopify API Error: " ++ toString plat.search.status ++ " - " ++
         plat.search.errorText) }, [sCall])
  else
    match plat.search.customers with
    | [] => createStep req env plat [sCall]
    | c :: _ =>
      let uCall := Call.update (jsStr env.shopifyDomain) c.id (updateData req env c)
      if plat.update.ok then
        ({ status := 200, success := some true,
           message := some "Customer already exists - updated marketing consent",
           customer_id := some c.id, email := req.email, existing_customer := some true },
         [sCall, uCall])
      else
        createStep req env plat [sCall, uCall]

/-- Second handler of `src/api/webhook.js` (lines 109–365). -/
def handler (req : Request) (env : Env) (plat : Platform) : ApiResponse × List Call :=
  if req.method == "OPTIONS" then
    ({ status := 200 }, [])
  else if req.method != "POST" then
    ({ status := 405, error := some "Method not allowed" }, [])
  else if jsFalsy req.email then
    ({ status := 400, error := some "Email is required" }, [])
  else if !isValidEmail (jsStr req.email) then
    ({ status := 400, error := some "Invalid email format", email := req.email }, [])
  else if jsFalsy env.shopifyDomain || jsFalsy env.accessToken then
    ({ status := 500, error := some "Webhook configuration error",
       details := some "Missing Shopify credentials in environment variables" }, [])
  else
    afterSearch req env plat

end Webhook2

namespace Part000

/-- Update-call tags of `part_000`: the submitted tags are not read; the
fixed default string is appended to (or replaces) the existing tags. -/
def updateTags (c : Customer) : Option String :=
  some (if jsTruthy c.tags then jsStr c.tags ++ "," ++ defaultTags else defaultTags)

/-- Update-call body of `part_000`. -/
def updateData (env : Env) (c : Customer) : UpdateBody :=
  { id := c.id, email_marketing_consent := nowConsent env.now, tags := updateTags c }

/-- Create-call body of `part_000`: fixed default tags, two metafields
(source, discount_code) under namespace `popup`. -/
def customerData (req : Request) (env : Env) : CreateBody :=
  { email := jsStr req.email
  , email_marketing_consent := nowConsent env.now
  , tags := defaultTags
  , note := "Customer created via discount popup. Source: " ++ jsOr req.source "popup" ++
      ". Discount: " ++ jsOr req.discount_code "WELCOME10" ++ ". Created: " ++ env.now
  , metafields :=
      [ { nspace := "popup", key := "source",
          value := some (jsOr req.source "discount_popup"),
          mtype := "single_line_text_field" }
      , { nspace := "popup", key := "discount_code",
          value := some (jsOr req.discount_code "WELCOME10"),
          mtype := "single_line_text_field" } ] }

/-- Create step of `part_000`; `pre` is the trace issued so far. -/
def createStep (req : Request) (env : Env) (plat : Platform) (pre : List Call) :
    ApiResponse × List Call :=
  let cCall := Call.create (jsStr env.shopifyDomain) (customerData req env)
  if plat.create.ok then
    ({ status := 200, success := some true, message := some "Customer created successfully",
       customer_id := some plat.create.customer.id, email := some plat.create.customer.email,
       existing_customer := some false }, pre ++ [cCall])
  else
    ({ status := 500, success := some false, error := some "Failed to create customer",
       details := some ("Shopify API Error: " ++ toString plat.create.status) },
     pre ++ [cCall])

/-- Search-and-branch tail of `part_000`, reached once the guards passed. -/
def afterSearch (req : Request) (env : Env) (plat : Platform) : ApiResponse × List Call :=
  let sCall := Call.search (jsStr env.shopifyDomain) (jsStr req.email)
  if !plat.search.ok then
    ({ status := 500, success := some false, error := some "Failed to search customers",
       details := some ("Shopify API Error: " ++ toString plat.search.status) }, [sCall])
  else
    match plat.search.customers with
    | [] => createStep req env plat [sCall]
    | c :: _ =>
      let uCall := Call.update (jsStr env.shopifyDomain) c.id (updateData env c)
      if plat.update.ok then
        ({ status := 200, success := some true,
           message := some "Existing customer updated with marketing consent",
           customer_id := some c.id, email := req.email, existing_customer := some true },
         [sCall, uCall])
      else
        createStep req env plat [sCall, uCall]

/-- Handler of `src/unnamed/part_000`. -/
def handler (req : Request) (env : Env) (plat : Platform) : ApiResponse × List Call :=
  if req.method == "OPTIONS" then
    ({ status := 200 }, [])
  else if req.method != "POST" then
    ({ status := 405, error := some "Method not allowed" }, [])
  else if jsFalsy req.email then
    ({ status := 400, success := some false, error := some "Email is required" }, [])
  else if !isValidEmail (jsStr req.email) then
    ({ status := 400, success := some false, error := some "Invalid email format",
       email := req.email }, [])
  else if jsFalsy env.shopifyDomain || jsFalsy env.accessToken then
    ({ status := 500, success := some false, error := some "Server configuration error",
       details := some "Missing required environment variables" }, [])
  else
    afterSearch req env plat

end Part000

namespace Part001

/-- Update-call tags of `part_001`: `existingCustomer.tags ?
`${existingCustomer.tags},${tags}` : tags` — an absent request `tags`
interpolates as "undefined" in the first arm and stays absent in the second. -/
def updateTags (req : Request) (c : Customer) : Option String :=
  if jsTruthy c.tags then some (jsStr c.tags ++ "," ++ jsStr req.tags) else req.tags

/-- Update-call body of `part_001`. -/
def updateData (req : Request) (env : Env) (c : Customer) : UpdateBody :=
  { id := c.id, email_marketing_consent := nowConsent env.now, tags := updateTags req c }

/-- Create-call body of `part_001`: two metafields (source, discount_code)
under namespace `discount_popup`, with the raw possibly-absent values. -/
def customerData (req : Request) (env : Env) : CreateBody :=
  { email := jsStr req.email
  , email_marketing_consent := nowConsent env.now
  , tags := jsOr req.tags "newsletter,discount-popup"
  , note := "Customer created via discount popup. Source: " ++ jsStr req.source ++
      ". Discount code: " ++ jsStr req.discount_code ++ ". Created: " ++ env.now
  , metafields :=
      [ { nspace := "discount_popup", key := "source",
          value := req.source,
          mtype := "single_line_text_field" }
      , { nspace := "discount_popup", key := "discount_code",
          value := req.discount_code,
          mtype := "single_line_text_field" } ] }

/-- Create step of `part_001`; `pre` is the trace issued so far. -/
def createStep (req : Request) (env : Env) (plat : Platform) (pre : List Call) :
    ApiResponse × List Call :=
  let cCall := Call.create (jsStr env.shopifyDomain) (customerData req env)
  if plat.create.ok then
    ({ status := 200, success := some true, message := some "Customer created successfully",
       customer_id := some plat.create.customer.admin_graphql_api_id,
       email := some plat.create.customer.email }, pre ++ [cCall])
  else
    ({ status := 500, error := some "Failed to create customer",
       details := some ("Shopify API Error: " ++ toString plat.create.status ++ " - " ++
         plat.create.responseText) }, pre ++ [cCall])

/-- Search-and-branch tail of `part_001`, reached once the guards passed. -/
def afterSearch (req : Request) (env : Env) (plat : Platform) : ApiResponse × List Call :=
  let sCall := Call.search (jsStr env.shopifyDomain) (jsStr req.email)
  if !plat.search.ok then
    ({ status := 500, error := some "Failed to search for existing customer",
       details := some ("Shopify API Error: " ++ toString plat.search.status ++ " - " ++
         plat.search.errorText) }, [sCall])
  else
    match plat.search.customers with
    | [] => createStep req env plat [sCall]
    | c :: _ =>
      let uCall := Call.update (jsStr env.shopifyDomain) c.id (updateData req env c)
      if plat.update.ok then
        ({ status := 200, success := some true,
           message := some "Customer already exists - updated marketing consent",
           customer_id := some c.admin_graphql_api_id,
           note := some "Email was already in system" }, [sCall, uCall])
      else
        createStep req env plat [sCall, uCall]

/-- Handler of `src/unnamed/part_001`: no email-format check, only the
missing-email check. -/
def handler (req : Request) (env : Env) (plat : Platform) : ApiResponse × List Call :=
  if req.method == "OPTIONS" then
    ({ status := 200 }, [])
  else if req.method != "POST" then
    ({ status := 405, error := some "Method not allowed" }, [])
  else if jsFalsy req.email then
    ({ status := 400, error := some "Email is required" }, [])
  else if jsFalsy env.shopifyDomain || jsFalsy env.accessToken then
    ({ status := 500, error := some "Webhook configuration error",
       details := some "Missing Shopify credentials in environment variables" }, [])
  else
    afterSearch req env plat

end Part001

/-! Concrete fixtures used by witnesses and counterexamples. -/

def custGold : Customer :=
  { id := "7", email := "a@b.com", tags := some "gold", admin_graphql_api_id := "gid://7" }

def newCust : Customer :=
  { id := "9", email := "a@b.com", tags := none, admin_graphql_api_id := "gid://9" }

def reqA : Request :=
  { method := "POST", email := some "a@b.com", source := some "landing",
    discount_code := some "SAVE10", tags := some "vip" }

def reqBadEmail : Request :=
  { method := "POST", email := some "not-an-email", source := none,
    discount_code := none, tags := none }

def envA : Env :=
  { shopifyDomain := some "shop.example", accessToken := some "tok",
    now := "2026-01-01T00:00:00.000Z", nowLocal := "1/1/2026" }

def searchEmpty : SearchResp := { ok := true, status := 200, errorText := "", customers := [] }

def searchGold : SearchResp := { ok := true, status := 200, errorText := "", customers := [custGold] }

def searchDown : SearchResp := { ok := false, status := 500, errorText := "boom", customers := [] }

def updOk : UpdateResp := { ok := true, status := 200, errorText := "" }

def updBad : UpdateResp := { ok := false, status := 422, errorText := "dup" }

def createOk : CreateResp := { ok := true, status := 201, responseText := "", customer := newCust }

def createBad422 : CreateResp :=
  { ok := false, status := 422, responseText := "exists", customer := newCust }

def createBad500 : CreateResp :=
  { ok := false, status := 500, responseText := "oops", customer := newCust }

def platE : Platform := { search := searchEmpty, update := updOk, create := createOk }

def platG : Platform := { search := searchGold, update := updOk, create := createOk }

def platGU : Platform := { search := searchGold, update := updBad, create := createOk }

def platGUF : Platform := { search := searchGold, update := updBad, create := createBad500 }

def platSF : Platform := { search := searchDown, update := updOk, create := createOk }

def plat422 : Platform := { search := searchEmpty, update := updOk, create := createBad422 }

def plat500 : Platform := { search := searchEmpty, update := updOk, create := createBad500 }

/-- The tags field of a call's body, when the call is a PUT update. -/
def Call.updateTagsOf : Call → Option (Option String)
  | .update _ _ b => some b.tags
  | _ => none

/-- The metafield keys of a call's body, when the call is a POST create. -/
def Call.metafieldKeys : Call → Option (List String)
  | .create _ b => some (b.metafields.map Metafield.key)
  | _ => none

/-- Concrete POST request with an absent email field. -/
def reqNoEmail : Request :=
  { method := "POST", email := none, source := none, discount_code := none, tags := none }

/-- C1: in each of the three search-based handlers, whenever the customer
search succeeds with an empty customers list, the invocation that performed
the search issues a create call, and no update call is ever issued. -/
theorem c1_empty_search_creates_never_updates (req : Request) (env : Env) (plat : Platform)
    (hok : plat.search.ok = true) (hemp : plat.search.customers = []) :
    (((Webhook2.handler req env plat).2.any Call.isSearch = true →
        (Webhook2.handler req env plat).2.any Call.isCreate = true) ∧
      ∀ call ∈ (Webhook2.handler req env plat).2, call.isUpdate = false) ∧
    (((Part000.handler req env plat).2.any Call.isSearch = true →
        (Part000.handler req env plat).2.any Call.isCreate = true) ∧
      ∀ call ∈ (Part000.handler req env plat).2, call.isUpdate = false) ∧
    (((Part001.handler req env plat).2.any Call.isSearch = true →
        (Part001.handler req env plat).2.any Call.isCreate = true) ∧
      ∀ call ∈ (Part001.handler req env plat).2, call.isUpdate = false) := by
  unfold Webhook2.handler Part000.handler Part001.handler
  unfold Webhook2.afterSearch Part000.afterSearch Part001.afterSearch
  simp only [hok, hemp]
  split_ifs <;>
    cases hc : plat.create.ok <;>
    simp_all [Webhook2.createStep, Part000.createStep, Part001.createStep,
      Call.isSearch, Call.isCreate, Call.isUpdate]

/-- Guard reduction for the second webhook.js handler: a POST with a valid
email and both credentials present proceeds to the search branch. -/
theorem webhook2_handler_searched (req : Request) (env : Env) (plat : Platform)
    (hpost : req.method = "POST") (hem : jsFalsy req.email = false)
    (hval : isValidEmail (jsStr req.email) = true)
    (hdom : jsFalsy env.shopifyDomain = false) (htok : jsFalsy env.accessToken = false) :
    Webhook2.handler req env plat = Webhook2.afterSearch req env plat := by
  unfold Webhook2.handler
  simp [hpost, hem, hval, hdom, htok]

/-- Guard reduction for `part_000`. -/
theorem part000_handler_searched (req : Request) (env : Env) (plat : Platform)
    (hpost : req.method = "POST") (hem : jsFalsy req.email = false)
    (hval : isValidEmail (jsStr req.email) = true)
    (hdom : jsFalsy env.shopifyDomain = false) (htok : jsFalsy env.accessToken = false) :
    Part000.handler req env plat = Part000.afterSearch req env plat := by
  unfold Part000.handler
  simp [hpost, hem, hval, hdom, htok]

/-- Guard reduction for `part_001`: no email-format guard exists there. -/
theorem part001_handler_searched (req : Request) (env : Env) (plat : Platform)
    (hpost : req.method = "POST") (hem : jsFalsy req.email = false)
    (hdom : jsFalsy env.shopifyDomain = false) (htok : jsFalsy env.accessToken = false) :
    Part001.handler req env plat = Part001.afterSearch req env plat := by
  unfold Part001.handler
  simp [hpost, hem, hdom, htok]

/-- C2: in each search-based handler, when the guards pass and the search
succeeds with a nonempty customers list, the handler issues an update call
whose URL path id and body id are the first customer's id, every update call
issued targets that id, and no call addresses the id of any later customer
in the result that differs from the first's. -/
theorem c2_update_targets_first_customer (req : Request) (env : Env) (plat : Platform)
    (c : Customer) (rest : List Customer)
    (hpost : req.method = "POST") (hem : jsFalsy req.email = false)
    (hval : isValidEmail (jsStr req.email) = true)
    (hdom : jsFalsy env.shopifyDomain = false) (htok : jsFalsy env.accessToken = false)
    (hok : plat.search.ok = true) (hcs : plat.search.customers = c :: rest) :
    ((Webhook2.handler req env plat).2.any (fun k => k.targetId == some c.id) = true ∧
      (∀ d i b, Call.update d i b ∈ (Webhook2.handler req env plat).2 →
        i = c.id ∧ b.id = c.id) ∧
      (∀ c' ∈ rest, c'.id ≠ c.id →
        ∀ call ∈ (Webhook2.handler req env plat).2, call.targetId ≠ some c'.id)) ∧
    ((Part000.handler req env plat).2.any (fun k => k.targetId == some c.id) = true ∧
      (∀ d i b, Call.update d i b ∈ (Part000.handler req env plat).2 →
        i = c.id ∧ b.id = c.id) ∧
      (∀ c' ∈ rest, c'.id ≠ c.id →
        ∀ call ∈ (Part000.handler req env plat).2, call.targetId ≠ some c'.id)) ∧
    ((Part001.handler req env plat).2.any (fun k => k.targetId == some c.id) = true ∧
      (∀ d i b, Call.update d i b ∈ (Part001.handler req env plat).2 →
        i = c.id ∧ b.id = c.id) ∧
      (∀ c' ∈ rest, c'.id ≠ c.id →
        ∀ call ∈ (Part001.handler req env plat).2, call.targetId ≠ some c'.id)) := by
  rw [webhook2_handler_searched req env plat hpost hem hval hdom htok,
    part000_handler_searched req env plat hpost hem hval hdom htok,
    part001_handler_searched req env plat hpost hem hdom htok]
  unfold Webhook2.afterSearch Part000.afterSearch Part001.afterSearch
  simp only [hok, hcs]
  cases hu : plat.update.ok <;> cases hc : plat.create.ok <;>
    simp_all [Webhook2.createStep, Part000.createStep, Part001.createStep,
      Webhook2.updateData, Part000.updateData, Part001.updateData,
      Call.targetId] <;>
    exact fun c' _ hne hq => hne hq.symm

/-- C1 witness: concrete POST with empty search result on `part_000`. -/
theorem c1_witness :
    platE.search.ok = true ∧ platE.search.customers = [] ∧
    ((Part000.handler reqA envA platE).2.any Call.isSearch = true →
      (Part000.handler reqA envA platE).2.any Call.isCreate = true) ∧
    ∀ call ∈ (Part000.handler reqA envA platE).2, call.isUpdate = false :=
  ⟨by decide, by decide,
    (c1_empty_search_creates_never_updates reqA envA platE (by decide) (by decide)).2.1.1,
    (c1_empty_search_creates_never_updates reqA envA platE (by decide) (by decide)).2.1.2⟩

/-- C2 witness: concrete POST finding one existing customer in webhook.js. -/
theorem c2_witness :
    reqA.method = "POST" ∧ jsFalsy reqA.email = false ∧
    isValidEmail (jsStr reqA.email) = true ∧ jsFalsy envA.shopifyDomain = false ∧
    jsFalsy envA.accessToken = false ∧ platG.search.ok = true ∧
    platG.search.customers = custGold :: [] ∧
    (Webhook2.handler reqA envA platG).2.any
      (fun k => k.targetId == some custGold.id) = true :=
  ⟨by decide, by decide, by decide, by decide, by decide, by decide, by decide,
    (c2_update_targets_first_customer reqA envA platG custGold [] (by decide) (by decide)
      (by decide) (by decide) (by decide) (by decide) (by decide)).1.1⟩

/-- C3: in each search-based handler, when a customer was found and the
update call fails, the handler does not stop with an error there: it issues
the create call, and the final response is the create branch's response
(success when the create succeeds, the create failure error otherwise). -/
theorem c3_update_failure_falls_through (req : Request) (env : Env) (plat : Platform)
    (c : Customer) (rest : List Customer)
    (hpost : req.method = "POST") (hem : jsFalsy req.email = false)
    (hval : isValidEmail (jsStr req.email) = true)
    (hdom : jsFalsy env.shopifyDomain = false) (htok : jsFalsy env.accessToken = false)
    (hok : plat.search.ok = true) (hcs : plat.search.customers = c :: rest)
    (hupd : plat.update.ok = false) :
    ((Webhook2.handler req env plat).2.any Call.isUpdate = true ∧
      (Webhook2.handler req env plat).2.any Call.isCreate = true ∧
      (plat.create.ok = true → (Webhook2.handler req env plat).1.status = 200 ∧
        (Webhook2.handler req env plat).1.success = some true) ∧
      (plat.create.ok = false → (Webhook2.handler req env plat).1.status = 500 ∧
        (Webhook2.handler req env plat).1.error = some "Failed to create customer")) ∧
    ((Part000.handler req env plat).2.any Call.isUpdate = true ∧
      (Part000.handler req env plat).2.any Call.isCreate = true ∧
      (plat.create.ok = true → (Part000.handler req env plat).1.status = 200 ∧
        (Part000.handler req env plat).1.success = some true) ∧
      (plat.create.ok = false → (Part000.handler req env plat).1.status = 500 ∧
        (Part000.handler req env plat).1.error = some "Failed to create customer")) ∧
    ((Part001.handler req env plat).2.any Call.isUpdate = true ∧
      (Part001.handler req env plat).2.any Call.isCreate = true ∧
      (plat.create.ok = true → (Part001.handler req env plat).1.status = 200 ∧
        (Part001.handler req env plat).1.success = some true) ∧
      (plat.create.ok = false → (Part001.handler req env plat).1.status = 500 ∧
        (Part001.handler req env plat).1.error = some "Failed to create customer")) := by
  rw [webhook2_handler_searched req env plat hpost hem hval hdom htok,
    part000_handler_searched req env plat hpost hem hval hdom htok,
    part001_handler_searched req env plat hpost hem hdom htok]
  unfold Webhook2.afterSearch Part000.afterSearch Part001.afterSearch
  simp only [hok, hcs, hupd]
  cases hc : plat.create.ok <;>
    simp_all [Webhook2.createStep, Part000.createStep, Part001.createStep,
      Call.isUpdate, Call.isCreate]

/-- C3 witness: concrete POST where part_000 finds a customer, the update
fails, and the create succeeds. -/
theorem c3_witness :
    platGU.search.customers = custGold :: [] ∧ platGU.update.ok = false ∧
    platGU.create.ok = true ∧
    (Part000.handler reqA envA platGU).2.any Call.isCreate = true :=
  ⟨by decide, by decide, by decide,
    (c3_update_failure_falls_through reqA envA platGU custGold [] (by decide) (by decide)
      (by decide) (by decide) (by decide) (by decide) (by decide) (by decide)).2.1.2.1⟩

/-- C6: in each search-based handler, a failed customer search is terminal:
the response is a 500 whose `details` carries the upstream status, and no
update and no create call is issued. -/
theorem c6_search_failure_terminal (req : Request) (env : Env) (plat : Platform)
    (hpost : req.method = "POST") (hem : jsFalsy req.email = false)
    (hval : isValidEmail (jsStr req.email) = true)
    (hdom : jsFalsy env.shopifyDomain = false) (htok : jsFalsy env.accessToken = false)
    (hfail : plat.search.ok = false) :
    ((Webhook2.handler req env plat).1.status = 500 ∧
      (Webhook2.handler req env plat).1.details =
        some ("Shopify API Error: " ++ toString plat.search.status ++ " - " ++
          plat.search.errorText) ∧
      ∀ call ∈ (Webhook2.handler req env plat).2,
        call.isUpdate = false ∧ call.isCreate = false) ∧
    ((Part000.handler req env plat).1.status = 500 ∧
      (Part000.handler req env plat).1.details =
        some ("Shopify API Error: " ++ toString plat.search.status) ∧
      ∀ call ∈ (Part000.handler req env plat).2,
        call.isUpdate = false ∧ call.isCreate = false) ∧
    ((Part001.handler req env plat).1.status = 500 ∧
      (Part001.handler req env plat).1.details =
        some ("Shopify API Error: " ++ toString plat.search.status ++ " - " ++
          plat.search.errorText) ∧
      ∀ call ∈ (Part001.handler req env plat).2,
        call.isUpdate = false ∧ call.isCreate = false) := by
  rw [webhook2_handler_searched req env plat hpost hem hval hdom htok,
    part000_handler_searched req env plat hpost hem hval hdom htok,
    part001_handler_searched req env plat hpost hem hdom htok]
  unfold Webhook2.afterSearch Part000.afterSearch Part001.afterSearch
  simp [hfail, Call.isUpdate, Call.isCreate]

/-- C6 witness: concrete POST where the search returns HTTP 500. -/
theorem c6_witness :
    platSF.search.ok = false ∧
    (Webhook2.handler reqA envA platSF).1.status = 500 ∧
    (Webhook2.handler reqA envA platSF).1.details =
      some ("Shopify API Error: " ++ toString platSF.search.status ++ " - " ++
        platSF.search.errorText) :=
  ⟨by decide,
    (c6_search_failure_terminal reqA envA platSF (by decide) (by decide) (by decide)
      (by decide) (by decide) (by decide)).1.1,
    (c6_search_failure_terminal reqA envA platSF (by decide) (by decide) (by decide)
      (by decide) (by decide) (by decide)).1.2.1⟩

/-- C4 counterexample: `part_001` does not validate the email format. On a
POST whose email is present but fails the pattern, with credentials present,
it does not return 400 and it does issue the outbound search call (here the
search fails, so the final status is 500). -/
theorem c4_counterexample :
    isValidEmail "not-an-email" = false ∧ reqBadEmail.method = "POST" ∧
    reqBadEmail.email = some "not-an-email" ∧
    (Part001.handler reqBadEmail envA platSF).1.status = 500 ∧
    (Part001.handler reqBadEmail envA platSF).2.any Call.isSearch = true := by
  decide

/-- C4 (amended): on a POST, an absent or pattern-failing email is rejected
with a 400 carrying an error field and no outbound call by both webhook.js
handlers and by `part_000`; `part_001` rejects only an absent email this
way, before any outbound call. -/
theorem c4_email_rejected_before_calls (req : Request) (env : Env) (plat : Platform)
    (hpost : req.method = "POST")
    (hbad : jsFalsy req.email = true ∨ isValidEmail (jsStr req.email) = false) :
    ((Webhook1.handler req env plat).1.status = 400 ∧
      (Webhook1.handler req env plat).1.error.isSome = true ∧
      (Webhook1.handler req env plat).2 = []) ∧
    ((Webhook2.handler req env plat).1.status = 400 ∧
      (Webhook2.handler req env plat).1.error.isSome = true ∧
      (Webhook2.handler req env plat).2 = []) ∧
    ((Part000.handler req env plat).1.status = 400 ∧
      (Part000.handler req env plat).1.error.isSome = true ∧
      (Part000.handler req env plat).2 = []) ∧
    (jsFalsy req.email = true →
      (Part001.handler req env plat).1.status = 400 ∧
      (Part001.handler req env plat).1.error.isSome = true ∧
      (Part001.handler req env plat).2 = []) := by
  unfold Webhook1.handler Webhook2.handler Part000.handler Part001.handler
  rcases hbad with h | h
  · simp [hpost, h]
  · cases he : jsFalsy req.email <;> simp [hpost, h, he]

/-- C4 witness: concrete POST with an absent email field. -/
theorem c4_witness :
    reqNoEmail.method = "POST" ∧ jsFalsy reqNoEmail.email = true ∧
    (Webhook2.handler reqNoEmail envA platE).1.status = 400 :=
  ⟨by decide, by decide,
    (c4_email_rejected_before_calls reqNoEmail envA platE (by decide)
      (Or.inl (by decide))).2.1.1⟩

/-- C5 counterexample: `part_000` ignores the submitted tags. For input tags
"vip" and an existing customer with tags "gold", its update body carries
"gold,newsletter,discount-popup,popup-subscriber", never "gold,vip". -/
theorem c5_counterexample :
    reqA.tags = some "vip" ∧ custGold.tags = some "gold" ∧
    platG.search.customers = [custGold] ∧
    (Part000.handler reqA envA platG).2.any
      (fun k => k.updateTagsOf == some (some ("gold," ++ defaultTags))) = true ∧
    ∀ call ∈ (Part000.handler reqA envA platG).2,
      call.updateTagsOf ≠ some (some "gold,vip") := by
  decide

/-- Normal form of the webhook.js tag merge: existing tags followed by a
comma and the effective submitted tags when the existing tags are truthy,
else just the effective submitted tags. -/
theorem Webhook2.combinedTags_eq (req : Request) (c : Customer) :
    Webhook2.combinedTags req c =
      if jsTruthy c.tags then jsStr c.tags ++ "," ++ jsOr req.tags defaultTags
      else jsOr req.tags defaultTags := by
  unfold Webhook2.combinedTags jsOr jsTruthy jsFalsy jsStr
  cases c.tags with
  | none => simp
  | some s => by_cases hs : s = "" <;> simp [hs]

/-- C5 (amended): on update the second webhook.js handler sends existing
tags ++ "," ++ submitted tags when the existing tags are non-empty and just
the submitted tags otherwise, with the default string substituted when the
request omits tags — in particular "gold" and "vip" merge to "gold,vip";
`part_001` concatenates the raw submitted value the same way; `part_000`
ignores the submitted tags and always appends the fixed default string. -/
theorem c5_tag_merge (req : Request) (env : Env) (plat : Platform)
    (c : Customer) (rest : List Customer)
    (hpost : req.method = "POST") (hem : jsFalsy req.email = false)
    (hval : isValidEmail (jsStr req.email) = true)
    (hdom : jsFalsy env.shopifyDomain = false) (htok : jsFalsy env.accessToken = false)
    (hok : plat.search.ok = true) (hcs : plat.search.customers = c :: rest) :
    (∀ d i b, Call.update d i b ∈ (Webhook2.handler req env plat).2 →
      b.tags = some (if jsTruthy c.tags then jsStr c.tags ++ "," ++ jsOr req.tags defaultTags
        else jsOr req.tags defaultTags)) ∧
    (∀ d i b, Call.update d i b ∈ (Part000.handler req env plat).2 →
      b.tags = some (if jsTruthy c.tags then jsStr c.tags ++ "," ++ defaultTags
        else defaultTags)) ∧
    (∀ d i b, Call.update d i b ∈ (Part001.handler req env plat).2 →
      b.tags = if jsTruthy c.tags then some (jsStr c.tags ++ "," ++ jsStr req.tags)
        else req.tags) ∧
    (Webhook2.handler reqA envA platG).2.any
      (fun k => k.updateTagsOf == some (some "gold,vip")) = true := by
  rw [webhook2_handler_searched req env plat hpost hem hval hdom htok,
    part000_handler_searched req env plat hpost hem hval hdom htok,
    part001_handler_searched req env plat hpost hem hdom htok]
  unfold Webhook2.afterSearch Part000.afterSearch Part001.afterSearch
  simp only [hok, hcs]
  refine ⟨?_, ?_, ?_, by decide⟩ <;>
    cases hu : plat.update.ok <;> cases hc : plat.create.ok <;>
    simp_all [Webhook2.createStep, Part000.createStep, Part001.createStep,
      Webhook2.updateData, Part000.updateData, Part001.updateData,
      Webhook2.combinedTags_eq, Part000.updateTags, Part001.updateTags]

/-- C5 witness: the webhook.js update body for input tags "vip" against the
existing customer with tags "gold". -/
theorem c5_witness :
    platG.search.customers = custGold :: [] ∧
    (∀ d i b, Call.update d i b ∈ (Webhook2.handler reqA envA platG).2 →
      b.tags = some (if jsTruthy custGold.tags then
        jsStr custGold.tags ++ "," ++ jsOr reqA.tags defaultTags
        else jsOr reqA.tags defaultTags)) :=
  ⟨by decide,
    (c5_tag_merge reqA envA platG custGold [] (by decide) (by decide) (by decide)
      (by decide) (by decide) (by decide) (by decide)).1⟩

/-- Every create call the second webhook.js handler issues carries exactly
its `customerData` body. -/
theorem webhook2_create_body_eq (req : Request) (env : Env) (plat : Platform) :
    ∀ d b, Call.create d b ∈ (Webhook2.handler req env plat).2 →
      b = Webhook2.customerData req env := by
  unfold Webhook2.handler Webhook2.afterSearch
  split_ifs <;>
    cases hlist : plat.search.customers <;>
    cases hc : plat.create.ok <;>
    simp_all [Webhook2.createStep]

/-- Every create call `part_000` issues carries exactly its `customerData`. -/
theorem part000_create_body_eq (req : Request) (env : Env) (plat : Platform) :
    ∀ d b, Call.create d b ∈ (Part000.handler req env plat).2 →
      b = Part000.customerData req env := by
  unfold Part000.handler Part000.afterSearch
  split_ifs <;>
    cases hlist : plat.search.customers <;>
    cases hc : plat.create.ok <;>
    simp_all [Part000.createStep]

/-- Every create call `part_001` issues carries exactly its `customerData`. -/
theorem part001_create_body_eq (req : Request) (env : Env) (plat : Platform) :
    ∀ d b, Call.create d b ∈ (Part001.handler req env plat).2 →
      b = Part001.customerData req env := by
  unfold Part001.handler Part001.afterSearch
  split_ifs <;>
    cases hlist : plat.search.customers <;>
    cases hc : plat.create.ok <;>
    simp_all [Part001.createStep]

/-- C7 counterexample: the second webhook.js handler's create body carries
three metafields (source, discount_code, created_via), not exactly two. -/
theorem c7_counterexample :
    (Webhook2.handler reqA envA platE).2.any
      (fun k => k.metafieldKeys == some ["source", "discount_code", "created_via"]) = true ∧
    (∀ call ∈ (Webhook2.handler reqA envA platE).2,
      call.metafieldKeys ≠ some ["source", "discount_code"]) := by
  decide

/-- C7 (amended): create bodies of `part_000` and `part_001` carry exactly
two metafields with keys source and discount_code under a single fixed
namespace ("popup" and "discount_popup" respectively), marketing consent
subscribed, and a note embedding the source, the discount code and the
timestamp; the second webhook.js handler's create body carries those plus a
third metafield `created_via` under namespace "discount_popup". -/
theorem c7_create_body_fields (req : Request) (env : Env) (plat : Platform) :
    (∀ d b, Call.create d b ∈ (Part000.handler req env plat).2 →
      b.metafields.map Metafield.key = ["source", "discount_code"] ∧
      (∀ m ∈ b.metafields, m.nspace = "popup") ∧
      b.email_marketing_consent = nowConsent env.now ∧
      b.note = "Customer created via discount popup. Source: " ++ jsOr req.source "popup" ++
        ". Discount: " ++ jsOr req.discount_code "WELCOME10" ++ ". Created: " ++ env.now) ∧
    (∀ d b, Call.create d b ∈ (Part001.handler req env plat).2 →
      b.metafields.map Metafield.key = ["source", "discount_code"] ∧
      (∀ m ∈ b.metafields, m.nspace = "discount_popup") ∧
      b.email_marketing_consent = nowConsent env.now ∧
      b.note = "Customer created via discount popup. Source: " ++ jsStr req.source ++
        ". Discount code: " ++ jsStr req.discount_code ++ ". Created: " ++ env.now) ∧
    (∀ d b, Call.create d b ∈ (Webhook2.handler req env plat).2 →
      b.metafields.map Metafield.key = ["source", "discount_code", "created_via"] ∧
      (∀ m ∈ b.metafields, m.nspace = "discount_popup") ∧
      b.email_marketing_consent = nowConsent env.now ∧
      b.note = "Customer created via discount popup. Source: " ++
        jsOr req.source "discount_popup" ++ ". Discount code: " ++
        jsOr req.discount_code "WELCOME10" ++ ". Created: " ++ env.now) := by
  refine ⟨fun d b hb => ?_, fun d b hb => ?_, fun d b hb => ?_⟩
  · rw [part000_create_body_eq req env plat d b hb]
    simp [Part000.customerData]
  · rw [part001_create_body_eq req env plat d b hb]
    simp [Part001.customerData]
  · rw [webhook2_create_body_eq req env plat d b hb]
    simp [Webhook2.customerData]

/-- C7 witness: the concrete create call `part_000` issues on an empty
search result, with its two metafield keys. -/
theorem c7_witness :
    Call.create "shop.example" (Part000.customerData reqA envA) ∈
      (Part000.handler reqA envA platE).2 ∧
    (Part000.customerData reqA envA).metafields.map Metafield.key =
      ["source", "discount_code"] :=
  ⟨by decide,
    ((c7_create_body_fields reqA envA platE).1 "shop.example"
      (Part000.customerData reqA envA) (by decide)).1⟩

/-- C8 counterexample: a successful update in `part_001` returns success
true but carries no `existing_customer` flag and no `email` field. -/
theorem c8_counterexample :
    platG.search.customers = [custGold] ∧ platG.update.ok = true ∧
    (Part001.handler reqA envA platG).1.status = 200 ∧
    (Part001.handler reqA envA platG).1.success = some true ∧
    (Part001.handler reqA envA platG).1.existing_customer = none ∧
    (Part001.handler reqA envA platG).1.email = none := by
  decide

/-- C8 (amended): in the second webhook.js handler and in `part_000`, a
successful update returns success true with existing_customer true, the
found customer's id and the submitted email; a successful create returns
success true with existing_customer false and the created customer's id and
email. `part_001` omits the existing_customer flag and, on update, the
email. -/
theorem c8_success_response_fields (req : Request) (env : Env) (plat : Platform)
    (c : Customer) (rest : List Customer)
    (hpost : req.method = "POST") (hem : jsFalsy req.email = false)
    (hval : isValidEmail (jsStr req.email) = true)
    (hdom : jsFalsy env.shopifyDomain = false) (htok : jsFalsy env.accessToken = false)
    (hok : plat.search.ok = true) :
    (plat.search.customers = c :: rest → plat.update.ok = true →
      (Webhook2.handler req env plat).1 =
        { status := 200, success := some true,
          message := some "Customer already exists - updated marketing consent",
          customer_id := some c.id, email := req.email, existing_customer := some true } ∧
      (Part000.handler req env plat).1 =
        { status := 200, success := some true,
          message := some "Existing customer updated with marketing consent",
          customer_id := some c.id, email := req.email, existing_customer := some true }) ∧
    ((Webhook2.handler req env plat).2.any Call.isCreate = true → plat.create.ok = true →
      (Webhook2.handler req env plat).1 =
        { status := 200, success := some true,
          message := some "Customer created successfully",
          customer_id := some plat.create.customer.id,
          email := some plat.create.customer.email, existing_customer := some false }) ∧
    ((Part000.handler req env plat).2.any Call.isCreate = true → plat.create.ok = true →
      (Part000.handler req env plat).1 =
        { status := 200, success := some true,
          message := some "Customer created successfully",
          customer_id := some plat.create.customer.id,
          email := some plat.create.customer.email, existing_customer := some false }) := by
  rw [webhook2_handler_searched req env plat hpost hem hval hdom htok,
    part000_handler_searched req env plat hpost hem hval hdom htok]
  unfold Webhook2.afterSearch Part000.afterSearch
  refine ⟨fun hcs hup => ?_, fun hcr hcok => ?_, fun hcr hcok => ?_⟩
  · simp_all [Webhook2.createStep, Part000.createStep]
  · cases hlist : plat.search.customers <;> cases hu : plat.update.ok <;>
      simp_all [Webhook2.createStep, Part000.createStep, Call.isCreate]
  · cases hlist : plat.search.customers <;> cases hu : plat.update.ok <;>
      simp_all [Webhook2.createStep, Part000.createStep, Call.isCreate]

/-- C8 witness: concrete successful update of the existing customer in
webhook.js. -/
theorem c8_witness :
    platG.search.customers = custGold :: [] ∧ platG.update.ok = true ∧
    (Webhook2.handler reqA envA platG).1 =
      { status := 200, success := some true,
        message := some "Customer already exists - updated marketing consent",
        customer_id := some custGold.id, email := reqA.email,
        existing_customer := some true } :=
  ⟨by decide, by decide,
    ((c8_success_response_fields reqA envA platG custGold [] (by decide) (by decide)
      (by decide) (by decide) (by decide) (by decide)).1 (by decide) (by decide)).1⟩

/-- C9 counterexample: the first webhook.js handler's create write does not
set consent subscribed/single_opt_in — it sets the legacy fields
`accepts_marketing: true` and `marketing_opt_in_level: 'confirmed_opt_in'`. -/
theorem c9_counterexample :
    (Webhook1.handler reqA envA platE).2 =
      [Call.legacyCreate "shop.example" (Webhook1.customerData reqA envA)] ∧
    (Webhook1.customerData reqA envA).marketing_opt_in_level = "confirmed_opt_in" ∧
    (Webhook1.customerData reqA envA).marketing_opt_in_level ≠ "single_opt_in" := by
  decide

set_option maxHeartbeats 1000000 in
/-- C9 (amended): every update or create body the three search-based
handlers send carries marketing consent subscribed / single_opt_in with the
current timestamp; the first webhook.js handler's create body instead sets
`accepts_marketing: true` with `marketing_opt_in_level: 'confirmed_opt_in'`. -/
theorem c9_consent_invariant (req : Request) (env : Env) (plat : Platform) :
    (∀ call ∈ (Webhook2.handler req env plat).2,
      call.consentOf = none ∨ call.consentOf = some (nowConsent env.now)) ∧
    (∀ call ∈ (Part000.handler req env plat).2,
      call.consentOf = none ∨ call.consentOf = some (nowConsent env.now)) ∧
    (∀ call ∈ (Part001.handler req env plat).2,
      call.consentOf = none ∨ call.consentOf = some (nowConsent env.now)) ∧
    (∀ d b, Call.legacyCreate d b ∈ (Webhook1.handler req env plat).2 →
      b.accepts_marketing = true ∧ b.marketing_opt_in_level = "confirmed_opt_in") := by
  refine ⟨?_, ?_, ?_, ?_⟩
  · unfold Webhook2.handler Webhook2.afterSearch
    split_ifs <;> cases hlist : plat.search.customers <;>
      cases hu : plat.update.ok <;> cases hc : plat.create.ok <;>
      simp_all [Webhook2.createStep, Webhook2.updateData, Webhook2.customerData,
        Call.consentOf]
  · unfold Part000.handler Part000.afterSearch
    split_ifs <;> cases hlist : plat.search.customers <;>
      cases hu : plat.update.ok <;> cases hc : plat.create.ok <;>
      simp_all [Part000.createStep, Part000.updateData, Part000.customerData,
        Call.consentOf]
  · unfold Part001.handler Part001.afterSearch
    split_ifs <;> cases hlist : plat.search.customers <;>
      cases hu : plat.update.ok <;> cases hc : plat.create.ok <;>
      simp_all [Part001.createStep, Part001.updateData, Part001.customerData,
        Call.consentOf]
  · unfold Webhook1.handler
    cases hi : jsIncludes (Webhook1.errorMessage plat) "422" <;>
      split_ifs <;> simp_all [Webhook1.customerData]

/-- C9 witness: the concrete update call `part_000` issues for the found
customer carries the subscribed/single_opt_in consent. -/
theorem c9_witness :
    Call.update "shop.example" custGold.id (Part000.updateData envA custGold) ∈
      (Part000.handler reqA envA platG).2 ∧
    ((Call.update "shop.example" custGold.id (Part000.updateData envA custGold)).consentOf
        = none ∨
      (Call.update "shop.example" custGold.id (Part000.updateData envA custGold)).consentOf
        = some (nowConsent envA.now)) :=
  ⟨by decide,
    (c9_consent_invariant reqA envA platG).2.1
      (Call.update "shop.example" custGold.id (Part000.updateData envA custGold))
      (by decide)⟩

/-- C10: the first webhook.js handler issues no search and no update call;
when its create call fails and the thrown message contains "422", it
returns HTTP 200 with success true and the message "Customer already exists
- updated marketing consent" although no update was performed; any other
create failure returns HTTP 500. -/
theorem c10_legacy_422_masked_as_success (req : Request) (env : Env) (plat : Platform)
    (hpost : req.method = "POST") (hem : jsFalsy req.email = false)
    (hval : isValidEmail (jsStr req.email) = true)
    (htok : jsFalsy env.accessToken = false) (hdom : jsFalsy env.shopifyDomain = false)
    (hfail : plat.create.ok = false) :
    (∀ call ∈ (Webhook1.handler req env plat).2,
      call.isSearch = false ∧ call.isUpdate = false) ∧
    (jsIncludes (Webhook1.errorMessage plat) "422" = true →
      (Webhook1.handler req env plat).1 =
        { status := 200, success := some true,
          message := some "Customer already exists - updated marketing consent",
          note := some "Email was already in system" }) ∧
    (jsIncludes (Webhook1.errorMessage plat) "422" = false →
      (Webhook1.handler req env plat).1 =
        { status := 500, error := some "Failed to create customer",
          details := some (Webhook1.errorMessage plat) }) := by
  unfold Webhook1.handler
  cases hi : jsIncludes (Webhook1.errorMessage plat) "422" <;>
    simp_all [hpost, hem, hval, htok, hdom, hfail, Call.isSearch, Call.isUpdate]

/-- C10 witness: a concrete create failure whose message contains "422". -/
theorem c10_witness :
    plat422.create.ok = false ∧
    jsIncludes (Webhook1.errorMessage plat422) "422" = true ∧
    (Webhook1.handler reqA envA plat422).1 =
      { status := 200, success := some true,
        message := some "Customer already exists - updated marketing consent",
        note := some "Email was already in system" } :=
  ⟨by decide, by decide,
    (c10_legacy_422_masked_as_success reqA envA plat422 (by decide) (by decide)
      (by decide) (by decide) (by decide) (by decide)).2.1 (by decide)⟩
